import Mathlib

/-!
Verification of the hexapod web-control supervisor (`hexweb7.py`):
the single-slot latest-wins command dispatcher, the background motion
worker, the global STOP_ALL soft-stop gate, and the preset sequencers.

The Python source is shallowly embedded: each lock-protected section of
a request handler or of the worker loop becomes one atomic Lean function
on a `WebState` record, hardware calls become an emitted `HwCall` list,
and the preset script is a step-indexed trace function.  All definitions
are transcribed from `src/hexweb7.py`; line numbers cited in doc
comments refer to that file.
-/

namespace Hexweb

/-- Height constants (hexweb7.py lines 19-22). -/
def TABLETOP_Z : Int := 40

/-- Normal walking pose height (line 20). -/
def RESET_Z : Int := 15

/-- Highest allowed body height (line 21). -/
def MAX_Z : Int := 45

/-- Lowest allowed body height (line 22). -/
def MIN_Z : Int := -30

/-- Pan servo port (line 25). -/
def PAN_PORT : Nat := 24

/-- Tilt servo port (line 26). -/
def TILT_PORT : Nat := 25

/-- Configured pan/tilt angle limits (lines 28-35): defaults 0..180,
possibly overridden by `pan_tilt_limits.json`, so modelled as a
parameter record. -/
structure Limits where
  PAN_MIN : Int
  PAN_MAX : Int
  TILT_MIN : Int
  TILT_MAX : Int
deriving DecidableEq, Repr

/-- The default limits when no `pan_tilt_limits.json` overrides them. -/
def defaultLimits : Limits := ⟨0, 180, 0, 180⟩

/-- `clamp(v, lo, hi)` (lines 104-105): `max(lo, min(hi, v))`. -/
def clamp (v lo hi : Int) : Int := max lo (min hi v)

/-- `with_offset(port, angle)` (lines 47-54): add the per-port offset,
then clamp the result into [0, 180].  The offset table `OFFSETS` is a
parameter (loaded from `servo_offsets.json`, default empty = all 0). -/
def with_offset (OFFSETS : Nat → Int) (port : Nat) (angle : Int) : Int :=
  let a := angle + OFFSETS port
  if a < 0 then 0
  else if a > 180 then 180
  else a

/-- The movement commands stored in the command slot
(`state.current_cmd`, values produced by `map_key_to_cmd`). -/
inductive Cmd where
  | fwd
  | back
  | right
  | left
  | turn_left
  | turn_right
  | raise
  | lower
  | tabletop
  | reset
deriving DecidableEq, Repr

/-- Hardware calls issued by the embedded code: gait steps, position
moves, single servo-angle writes, relax, LED wipes and buzzer pulses. -/
inductive HwCall where
  | runGait (args : List String)
  | movePosition (x y z : Int)
  | setServoAngle (channel : Nat) (angle : Int)
  | relax
  | ledWipe (r g b : Nat)
  | buzz
deriving DecidableEq, Repr

/-- Is this call a servo-angle write (the calls gated by STOP_ALL)? -/
def isServoWrite : HwCall → Bool
  | HwCall.setServoAngle _ _ => true
  | _ => false

/-- Is this call part of the Actuator Interface of the spec
(gait step, pose move, servo-angle write, relax)? -/
def isActuatorCall : HwCall → Bool
  | HwCall.runGait _ => true
  | HwCall.movePosition _ _ _ => true
  | HwCall.setServoAngle _ _ => true
  | HwCall.relax => true
  | _ => false

/-- The lock-protected shared state of `hexweb7.py`: the fields of
`WebState.__init__` (lines 60-87) plus the module global `STOP_ALL`
(line 92), which is read and written under the same lock. -/
structure WebState where
  body_z : Int
  pan_angle : Int
  tilt_angle : Int
  current_cmd : Option Cmd
  thread_running : Bool
  active_preset : Option String
  stop_all : Bool
deriving DecidableEq, Repr

/-- The state right after `WebState.__init__` (lines 60-87) with
`STOP_ALL = False` (line 92). -/
def initialWebState : WebState :=
  { body_z := RESET_Z
    pan_angle := 90
    tilt_angle := 90
    current_cmd := none
    thread_running := true
    active_preset := none
    stop_all := false }

/-- `guarded_set_servo_angle` (lines 96-100): if STOP_ALL is set the
write is dropped (no hardware call), otherwise it is forwarded
unchanged to the real `set_servo_angle`.  Every `set_servo_angle` call
in the program goes through this wrapper, because line 102 replaces the
servo object's method with it. -/
def guarded_set_servo_angle (stop_all : Bool) (channel : Nat) (angle : Int) :
    List HwCall :=
  if stop_all then []
  else [HwCall.setServoAngle channel angle]

/-- `map_key_to_cmd` (lines 185-207). -/
def map_key_to_cmd (key : String) : Option Cmd × String :=
  if key = "w" then (some Cmd.fwd, "Forward")
  else if key = "s" then (some Cmd.back, "Backward")
  else if key = "d" then (some Cmd.right, "Right")
  else if key = "a" then (some Cmd.left, "Left")
  else if key = "j" then (some Cmd.turn_left, "Turn Left")
  else if key = "l" then (some Cmd.turn_right, "Turn Right")
  else if key = "i" then (some Cmd.raise, "Raise body")
  else if key = "k" then (some Cmd.lower, "Lower body")
  else if key = "t" then (some Cmd.tabletop, "Tabletop pose")
  else if key = "r" then (some Cmd.reset, "Reset pose")
  else (none, "Unknown hexapod command")

/-- The lock-protected section of the `/cmd` route (lines 801-814):
FIRST clears STOP_ALL unconditionally ("any movement clears stop-all",
line 807), then maps the key and writes the slot only for known keys.
Returns the new state and the response message. -/
def cmd_route (key : String) (s : WebState) : WebState × String :=
  let s1 : WebState := { s with stop_all := false }
  match map_key_to_cmd key with
  | (some c, msg) => ({ s1 with current_cmd := some c }, msg)
  | (none, _) => (s1, "Unknown hexapod command")

/-- The lock-protected section of the `/stopall` route (lines 816-824):
sets STOP_ALL, issues the (ungated) `relax()`, clears the command slot
and the active preset, all in one critical section before returning. -/
def stopall_route (s : WebState) : WebState × List HwCall :=
  ({ s with stop_all := true, current_cmd := none, active_preset := none },
   [HwCall.relax])

/-- One movement action of the worker (lines 133-174): gait commands
issue one `run_gait` with the literal argument list from the source;
height/pose commands clamp `body_z` and issue one `move_position`. -/
def execCmd (s : WebState) (cmd : Cmd) : WebState × List HwCall :=
  match cmd with
  | Cmd.fwd =>
      (s, [HwCall.runGait ["CMD_MOVE", "1", "0", "35", "10", "0"]])
  | Cmd.back =>
      (s, [HwCall.runGait ["CMD_MOVE", "2", "0", "-35", "10", "10"]])
  | Cmd.right =>
      (s, [HwCall.runGait ["CMD_MOVE", "1", "35", "0", "10", "0"]])
  | Cmd.left =>
      (s, [HwCall.runGait ["CMD_MOVE", "1", "-35", "0", "10", "0"]])
  | Cmd.turn_left =>
      (s, [HwCall.runGait ["CMD_MOVE", "1", "0", "0", "10", "20"]])
  | Cmd.turn_right =>
      (s, [HwCall.runGait ["CMD_MOVE", "1", "0", "0", "10", "-20"]])
  | Cmd.raise =>
      let z := clamp (s.body_z + 2) MIN_Z MAX_Z
      ({ s with body_z := z }, [HwCall.movePosition 0 0 z])
  | Cmd.lower =>
      let z := clamp (s.body_z - 2) MIN_Z MAX_Z
      ({ s with body_z := z }, [HwCall.movePosition 0 0 z])
  | Cmd.tabletop =>
      let z := clamp TABLETOP_Z MIN_Z MAX_Z
      ({ s with body_z := z }, [HwCall.movePosition 0 0 z])
  | Cmd.reset =>
      let z := clamp RESET_Z MIN_Z MAX_Z
      ({ s with body_z := z }, [HwCall.movePosition 0 0 z])

/-- The final lock-protected section of a worker iteration
(lines 176-179): clear the slot only if it still holds the command that
was just executed. -/
def workerClearSlot (executed : Cmd) (s : WebState) : WebState :=
  if s.current_cmd = some executed then { s with current_cmd := none }
  else s

/-- One full iteration of `movement_worker` (lines 117-179), taken with
no interleaved writer: if STOP_ALL is set, relax and clear the slot;
else if the slot is empty, idle; else execute exactly one action and
clear the slot if unchanged. -/
def workerTick (s : WebState) : WebState × List HwCall :=
  if s.stop_all then
    ({ s with current_cmd := none }, [HwCall.relax])
  else
    match s.current_cmd with
    | none => (s, [])
    | some cmd =>
        let r := execCmd s cmd
        (workerClearSlot cmd r.1, r.2)

/-- The new pan/tilt angles computed by `handle_pan_tilt`
(lines 219-239) for everything except the `relax` branch: `center`
writes 90/90 with no clamping; the four step actions clamp into the
configured bounds; an unknown action string leaves both unchanged. -/
def pt_angles (L : Limits) (cmd : String) (step pan tilt : Int) : Int × Int :=
  if cmd = "center" then (90, 90)
  else if cmd = "pan_left" then (clamp (pan - step) L.PAN_MIN L.PAN_MAX, tilt)
  else if cmd = "pan_right" then (clamp (pan + step) L.PAN_MIN L.PAN_MAX, tilt)
  else if cmd = "tilt_up" then (pan, clamp (tilt - step) L.TILT_MIN L.TILT_MAX)
  else if cmd = "tilt_down" then (pan, clamp (tilt + step) L.TILT_MIN L.TILT_MAX)
  else (pan, tilt)

/-- `handle_pan_tilt` (lines 210-247), one critical section: the
`relax` branch relaxes (ungated) and returns with angles unchanged;
every other branch stores the new angles and issues the two servo
writes through the STOP_ALL gate with `with_offset` applied.  Note the
handler never touches `stop_all`.  Returns the new state, the emitted
hardware calls, and the (pan, tilt) reply. -/
def handle_pan_tilt (L : Limits) (off : Nat → Int) (cmd : String)
    (step : Int) (s : WebState) : WebState × List HwCall × Int × Int :=
  if cmd = "relax" then
    (s, [HwCall.relax], s.pan_angle, s.tilt_angle)
  else
    let p := pt_angles L cmd step s.pan_angle s.tilt_angle
    let s1 : WebState := { s with pan_angle := p.1, tilt_angle := p.2 }
    (s1,
     guarded_set_servo_angle s.stop_all PAN_PORT (with_offset off PAN_PORT p.1) ++
       guarded_set_servo_angle s.stop_all TILT_PORT (with_offset off TILT_PORT p.2),
     p.1, p.2)

/-- The lock-protected start section of `run_preset` (lines 368-371):
record the active preset and clear STOP_ALL ("ensure it's allowed to
move") before spawning the script thread. -/
def run_preset_start (name : String) (s : WebState) : WebState :=
  { s with active_preset := some name, stop_all := false }

/-- The `/preset` route (lines 907-914): an unknown name is rejected
with ok=false and no state change; a known name starts the preset.
Returns the new state, the ok flag and the message. -/
def preset_route (name : String) (s : WebState) : WebState × Bool × String :=
  if name = "demo1" ∨ name = "demo2" ∨ name = "demo3" then
    (run_preset_start name s, true, "Running " ++ name)
  else (s, false, "Unknown preset")

/-- The inbound operations that mutate the shared state, each one
atomic because the source performs it under the single lock. -/
inductive Event where
  | cmdKey (key : String)
  | stopAll
  | tick
  | panTilt (cmd : String) (step : Int)
  | presetStart (name : String)
deriving DecidableEq, Repr

/-- Atomic step semantics: apply one event to the shared state and
collect the hardware calls it issues. -/
def stepE (L : Limits) (off : Nat → Int) (s : WebState) (e : Event) :
    WebState × List HwCall :=
  match e with
  | Event.cmdKey k => ((cmd_route k s).1, [])
  | Event.stopAll => stopall_route s
  | Event.tick => workerTick s
  | Event.panTilt c st =>
      let r := handle_pan_tilt L off c st s
      (r.1, r.2.1)
  | Event.presetStart n => ((preset_route n s).1, [])

/-- Run one tick's hardware calls against a fallible actuator.  The
worker body (lines 117-179) contains no try/except, so the first
failing call propagates. -/
def runCalls (act : HwCall → Except String Unit) :
    List HwCall → Except String Unit
  | [] => Except.ok ()
  | c :: rest =>
      match act c with
      | Except.ok _ => runCalls act rest
      | Except.error e => Except.error e

/-- One worker iteration against a fallible actuator: the state update
plus its hardware calls, with any actuator exception propagating
uncaught (as in the source, which has no handler in the loop). -/
def workerTickF (act : HwCall → Except String Unit) (s : WebState) :
    Except String WebState :=
  let r := workerTick s
  match runCalls act r.2 with
  | Except.ok _ => Except.ok r.1
  | Except.error e => Except.error e

/-- The worker loop (`while state.thread_running`, line 117), run for
`fuel` iterations: it exits normally when `thread_running` is false,
and an uncaught actuator exception terminates it early with that
error. -/
def workerLoopF (act : HwCall → Except String Unit) :
    Nat → WebState → Except String WebState
  | 0, s => Except.ok s
  | fuel + 1, s =>
      if s.thread_running then
        match workerTickF act s with
        | Except.ok s1 => workerLoopF act fuel s1
        | Except.error e => Except.error e
      else Except.ok s

/-- An actuator on which every gait call raises (e.g. a serial-bus
failure inside `run_gait`). -/
def failingGaitAct : HwCall → Except String Unit
  | HwCall.runGait _ => Except.error "actuator failure"
  | _ => Except.ok ()

/-- An actuator that never fails. -/
def okAct : HwCall → Except String Unit := fun _ => Except.ok ()

/-- One scripted sub-action of a preset (`run_preset`, lines 388-458):
a buzzer pulse, an LED wipe, a command-slot write via `set_cmd`
(lines 373-375), a pan/tilt target via `pt_to` (lines 377-386), or a
final breathing LED effect. -/
inductive PAct where
  | buzz
  | ledSolidA (r g b : Nat)
  | setCmdA (c : Cmd)
  | ptToA (pan tilt : Option Int)
  | ledBreatheA (r g b : Nat)
deriving DecidableEq, Repr

/-- Execute one preset sub-action on the shared state.  `set_cmd`
writes the slot; `pt_to` clamps the given targets into the configured
bounds, stores them, and issues the two servo writes through the
STOP_ALL gate; `led_breathe` checks STOP_ALL at its loop head, so with
the flag set it only drives the LEDs off (lines 279-292); buzzer and
solid-LED calls are not gated. -/
def doPAct (L : Limits) (off : Nat → Int) (s : WebState) (a : PAct) :
    WebState × List HwCall :=
  match a with
  | PAct.buzz => (s, [HwCall.buzz])
  | PAct.ledSolidA r g b => (s, [HwCall.ledWipe r g b])
  | PAct.setCmdA c => ({ s with current_cmd := some c }, [])
  | PAct.ptToA pan tilt =>
      let p := match pan with
        | some v => clamp v L.PAN_MIN L.PAN_MAX
        | none => s.pan_angle
      let t := match tilt with
        | some v => clamp v L.TILT_MIN L.TILT_MAX
        | none => s.tilt_angle
      let s1 : WebState := { s with pan_angle := p, tilt_angle := t }
      (s1,
       guarded_set_servo_angle s.stop_all PAN_PORT (with_offset off PAN_PORT p) ++
         guarded_set_servo_angle s.stop_all TILT_PORT (with_offset off TILT_PORT t))
  | PAct.ledBreatheA r g b =>
      if s.stop_all then (s, [HwCall.ledWipe 0 0 0])
      else (s, [HwCall.ledWipe r g b, HwCall.ledWipe 0 0 0])

/-- Run a straight-line block of preset sub-actions.  Instructions are
numbered by `n`; the external `StopAll()` request fires at instruction
boundary `stopAt` (modelling `/stopall` taking the lock between two
scripted steps).  A straight-line block performs no STOP_ALL check. -/
def runSeq (L : Limits) (off : Nat → Int) (stopAt : Nat) :
    Nat → WebState → List PAct → Nat × WebState × List HwCall
  | n, s, [] => (n, s, [])
  | n, s, a :: rest =>
      let f := if n = stopAt then stopall_route s else (s, [])
      let r := doPAct L off f.1 a
      let t := runSeq L off stopAt (n + 1) r.1 rest
      (t.1, t.2.1, f.2 ++ r.2 ++ t.2.2)

/-- Run the iterations of a preset loop.  Each iteration starts with
the `if STOP_ALL: break` check from the source (line 399): if the flag
is set at the check, the remaining iterations are skipped and control
falls through to whatever follows the loop. -/
def runLoop (L : Limits) (off : Nat → Int) (stopAt : Nat) :
    Nat → WebState → List (List PAct) → Nat × WebState × List HwCall
  | n, s, [] => (n, s, [])
  | n, s, iter :: rest =>
      let f := if n = stopAt then stopall_route s else (s, [])
      if f.1.stop_all then (n + 1, f.1, f.2)
      else
        let r := runSeq L off stopAt (n + 1) f.1 iter
        let t := runLoop L off stopAt r.1 r.2.1 rest
        (t.1, t.2.1, f.2 ++ r.2.2 ++ t.2.2)

/-- The straight-line prologue of demo1 (lines 390-397): initial
buzzer pulse, cyan LED, raise command. -/
def demo1Pro : List PAct :=
  [PAct.buzz, PAct.ledSolidA 0 200 255, PAct.setCmdA Cmd.raise]

/-- One iteration of demo1's patrol loop (lines 398-408): forward
step, pan to 60 then 120, and a beep on iterations 1 and 3. -/
def demo1Iter (i : Nat) : List PAct :=
  [PAct.setCmdA Cmd.fwd, PAct.ptToA (some 60) none,
   PAct.ptToA (some 120) none] ++
    (if i = 1 ∨ i = 3 then [PAct.buzz] else [])

/-- The straight-line tail of demo1 (lines 409-412), executed after
the loop whether it completed or broke on STOP_ALL: recenter pan/tilt,
reset pose command, breathing LED.  No STOP_ALL check guards it. -/
def demo1Tail : List PAct :=
  [PAct.ptToA (some 90) (some 90), PAct.setCmdA Cmd.reset,
   PAct.ledBreatheA 0 200 255]

/-- The full demo1 script (lines 388-458 for name = "demo1"): the
locked start section, the prologue, four loop iterations, the tail,
and the `finally` clause clearing `active_preset` (lines 454-456).
`stopAt` is the instruction boundary at which an external `StopAll()`
fires (a boundary past the script means it never fires). -/
def runDemo1 (L : Limits) (off : Nat → Int) (stopAt : Nat)
    (s0 : WebState) : WebState × List HwCall :=
  let s := run_preset_start "demo1" s0
  let a := runSeq L off stopAt 0 s demo1Pro
  let b := runLoop L off stopAt a.1 a.2.1
    [demo1Iter 0, demo1Iter 1, demo1Iter 2, demo1Iter 3]
  let c := runSeq L off stopAt b.1 b.2.1 demo1Tail
  ({ c.2.1 with active_preset := none }, a.2.2 ++ b.2.2 ++ c.2.2)

/-- The all-zero offset table (`servo_offsets.json` missing, line 40). -/
def zeroOffsets : Nat → Int := fun _ => 0

/-- `clamp` never goes below the lower bound. -/
theorem le_clamp (v lo hi : Int) : lo ≤ clamp v lo hi := le_max_left lo _

/-- `clamp` never exceeds the upper bound, provided the bounds are
ordered. -/
theorem clamp_le (v lo hi : Int) (h : lo ≤ hi) : clamp v lo hi ≤ hi :=
  max_le h (min_le_left hi v)

/-- `with_offset` always lands in [0, 180]. -/
theorem with_offset_bounds (off : Nat → Int) (p : Nat) (a : Int) :
    0 ≤ with_offset off p a ∧ with_offset off p a ≤ 180 := by
  simp only [with_offset]
  split_ifs <;> omega

/-- With an always-succeeding actuator, `runCalls` succeeds. -/
theorem runCalls_ok (act : HwCall → Except String Unit)
    (h : ∀ c, act c = Except.ok ()) :
    ∀ l, runCalls act l = Except.ok ()
  | [] => rfl
  | c :: rest => by
      unfold runCalls
      rw [h c]
      exact runCalls_ok act h rest

/-- `execCmd` only touches `body_z`: the command slot is unchanged. -/
theorem execCmd_current_cmd (s : WebState) (c : Cmd) :
    (execCmd s c).1.current_cmd = s.current_cmd := by
  cases c <;> rfl

/-- `execCmd` only touches `body_z`: the stop flag is unchanged. -/
theorem execCmd_stop_all (s : WebState) (c : Cmd) :
    (execCmd s c).1.stop_all = s.stop_all := by
  cases c <;> rfl

/-- `execCmd` only touches `body_z`: pan/tilt are unchanged. -/
theorem execCmd_pan_tilt (s : WebState) (c : Cmd) :
    (execCmd s c).1.pan_angle = s.pan_angle ∧
      (execCmd s c).1.tilt_angle = s.tilt_angle := by
  cases c <;> exact ⟨rfl, rfl⟩

/-- Claim C1: latest command wins — `SetCommand` unconditionally
overwrites the single command slot with no queueing, so after two
commands issued before the worker's next tick the slot holds only the
second, and the tick executes exactly that later command's action and
then clears the slot. -/
theorem latest_command_wins (L : Limits) (off : Nat → Int) (s : WebState)
    (k1 k2 : String) (c1 c2 : Cmd) (m1 m2 : String)
    (h1 : map_key_to_cmd k1 = (some c1, m1))
    (h2 : map_key_to_cmd k2 = (some c2, m2)) :
    ((stepE L off ((stepE L off s (Event.cmdKey k1)).1) (Event.cmdKey k2)).1).current_cmd
        = some c2 ∧
    (stepE L off ((stepE L off ((stepE L off s (Event.cmdKey k1)).1)
          (Event.cmdKey k2)).1) Event.tick).2
        = (execCmd ((stepE L off ((stepE L off s (Event.cmdKey k1)).1)
            (Event.cmdKey k2)).1) c2).2 ∧
    (stepE L off ((stepE L off ((stepE L off s (Event.cmdKey k1)).1)
          (Event.cmdKey k2)).1) Event.tick).1.current_cmd = none := by
  simp only [stepE, cmd_route, h1, h2, workerTick, workerClearSlot]
  simp [execCmd_current_cmd]

/-- The state after `SetCommand("forward")` then `SetCommand("left")`
from the initial state (the concrete latest-wins scenario). -/
def c1State : WebState :=
  (stepE defaultLimits zeroOffsets
    ((stepE defaultLimits zeroOffsets initialWebState (Event.cmdKey "w")).1)
    (Event.cmdKey "a")).1

/-- Witness for C1: key "w" (forward) then key "a" (strafe left)
before the tick leaves only the strafe command in the slot, the tick
runs exactly the strafe gait, never the forward gait. -/
theorem latest_command_wins_witness :
    c1State.current_cmd = some Cmd.left ∧
    (stepE defaultLimits zeroOffsets c1State Event.tick).2
      = (execCmd c1State Cmd.left).2 ∧
    (stepE defaultLimits zeroOffsets c1State Event.tick).1.current_cmd = none ∧
    HwCall.runGait ["CMD_MOVE", "1", "0", "35", "10", "0"] ∉
      (stepE defaultLimits zeroOffsets c1State Event.tick).2 :=
  ⟨(latest_command_wins defaultLimits zeroOffsets initialWebState "w" "a"
      Cmd.fwd Cmd.left "Forward" "Left" rfl rfl).1,
   (latest_command_wins defaultLimits zeroOffsets initialWebState "w" "a"
      Cmd.fwd Cmd.left "Forward" "Left" rfl rfl).2.1,
   (latest_command_wins defaultLimits zeroOffsets initialWebState "w" "a"
      Cmd.fwd Cmd.left "Forward" "Left" rfl rfl).2.2,
   by decide⟩

/-- Claim C2: after `StopAll()` returns, no previously-queued command
can still be executed.  `SetCommand("forward")` followed by
`StopAll()` before the tick leaves the stop flag set, the slot and
active preset cleared, `Relax()` already issued inside `StopAll()`
itself; the next tick only relaxes again, and no gait call for
"forward" (or anything else) is ever issued. -/
theorem stopall_cancels_pending_command (L : Limits) (off : Nat → Int)
    (s : WebState) :
    (stepE L off ((stepE L off s (Event.cmdKey "w")).1) Event.stopAll).1.stop_all
        = true ∧
    (stepE L off ((stepE L off s (Event.cmdKey "w")).1) Event.stopAll).1.current_cmd
        = none ∧
    (stepE L off ((stepE L off s (Event.cmdKey "w")).1) Event.stopAll).1.active_preset
        = none ∧
    (stepE L off ((stepE L off s (Event.cmdKey "w")).1) Event.stopAll).2
        = [HwCall.relax] ∧
    (stepE L off (stepE L off ((stepE L off s (Event.cmdKey "w")).1)
        Event.stopAll).1 Event.tick).2 = [HwCall.relax] ∧
    (stepE L off (stepE L off ((stepE L off s (Event.cmdKey "w")).1)
        Event.stopAll).1 Event.tick).1.current_cmd = none ∧
    (∀ args : List String,
      HwCall.runGait args ∉
        (stepE L off ((stepE L off s (Event.cmdKey "w")).1) Event.stopAll).2 ++
          (stepE L off (stepE L off ((stepE L off s (Event.cmdKey "w")).1)
            Event.stopAll).1 Event.tick).2) := by
  refine ⟨rfl, rfl, rfl, rfl, rfl, rfl, ?_⟩
  intro args
  simp [stepE, stopall_route, workerTick]

/-- Witness for C2 at the initial state. -/
theorem stopall_cancels_pending_command_witness :
    (stepE defaultLimits zeroOffsets
        ((stepE defaultLimits zeroOffsets initialWebState
          (Event.cmdKey "w")).1) Event.stopAll).1.stop_all = true ∧
    HwCall.runGait ["CMD_MOVE", "1", "0", "35", "10", "0"] ∉
      (stepE defaultLimits zeroOffsets ((stepE defaultLimits zeroOffsets
          initialWebState (Event.cmdKey "w")).1) Event.stopAll).2 ++
        (stepE defaultLimits zeroOffsets (stepE defaultLimits zeroOffsets
          ((stepE defaultLimits zeroOffsets initialWebState
            (Event.cmdKey "w")).1) Event.stopAll).1 Event.tick).2 :=
  ⟨(stopall_cancels_pending_command defaultLimits zeroOffsets
      initialWebState).1,
   (stopall_cancels_pending_command defaultLimits zeroOffsets
      initialWebState).2.2.2.2.2.2 ["CMD_MOVE", "1", "0", "35", "10", "0"]⟩

/-- A stopped state: the initial state with STOP_ALL engaged. -/
def sStopped : WebState := { initialWebState with stop_all := true }

/-- Claim C3: every servo-angle write passes through
`guarded_set_servo_angle` (the source patches the servo object's
method, line 102, so the worker, the pan/tilt handler and the preset
sequencers all reach the same wrapper): with the stop flag set the
write is silently dropped, otherwise it is forwarded unchanged; hence
the pan/tilt handler and a preset pan/tilt step issue no servo-angle
call while STOP_ALL holds. -/
theorem stop_gate_all_writes (ch : Nat) (a : Int) (L : Limits)
    (off : Nat → Int) (c : String) (st : Int) (s : WebState)
    (pan tilt : Option Int) (hstop : s.stop_all = true) :
    guarded_set_servo_angle true ch a = [] ∧
    guarded_set_servo_angle false ch a = [HwCall.setServoAngle ch a] ∧
    (handle_pan_tilt L off c st s).2.1.filter isServoWrite = [] ∧
    (doPAct L off s (PAct.ptToA pan tilt)).2.filter isServoWrite = [] := by
  refine ⟨rfl, rfl, ?_, ?_⟩
  · unfold handle_pan_tilt
    split
    · rfl
    · simp [guarded_set_servo_angle, hstop]
  · simp [doPAct, guarded_set_servo_angle, hstop]

/-- Witness for C3: with STOP_ALL set, a `center` pan/tilt request and
a preset pan/tilt step issue no servo-angle hardware call. -/
theorem stop_gate_all_writes_witness :
    guarded_set_servo_angle true 24 90 = [] ∧
    guarded_set_servo_angle false 24 90 = [HwCall.setServoAngle 24 90] ∧
    (handle_pan_tilt defaultLimits zeroOffsets "center" 3
        sStopped).2.1.filter isServoWrite = [] ∧
    (doPAct defaultLimits zeroOffsets sStopped
        (PAct.ptToA (some 60) none)).2.filter isServoWrite = [] :=
  stop_gate_all_writes 24 90 defaultLimits zeroOffsets "center" 3
    sStopped (some 60) none rfl

/-- A running state with a forward command queued. -/
def sC4 : WebState := { initialWebState with current_cmd := some Cmd.fwd }

/-- Counterexample to C4: the body of `movement_worker`
(lines 117-179) contains no try/except around `run_gait` or
`move_position`, so a raising actuator call propagates out of the loop
and terminates the worker thread.  Concretely, with an actuator whose
gait call fails and a queued "fwd" command, the loop terminates with
that error although the running flag is still true — contradicting
"the Motion Worker loop never terminates because of an actuator
error". -/
theorem worker_dies_on_actuator_error :
    workerLoopF failingGaitAct 5 sC4 = Except.error "actuator failure" ∧
    sC4.thread_running = true ∧ sC4.stop_all = false :=
  ⟨rfl, rfl, rfl⟩

/-- Amended C4: an actuator failure during a worker tick's gait or
position call is NOT caught (nothing is logged): the exception
propagates and terminates the worker loop even while the running flag
is true.  In the absence of actuator errors the loop never raises, and
it exits as soon as the running flag is false. -/
theorem worker_error_propagation
    (act : HwCall → Except String Unit)
    (hok : ∀ c, act c = Except.ok ()) :
    (workerLoopF failingGaitAct 5 sC4 = Except.error "actuator failure" ∧
      sC4.thread_running = true) ∧
    (∀ fuel s, ∃ s1, workerLoopF act fuel s = Except.ok s1) ∧
    (∀ fuel s, s.thread_running = false →
      workerLoopF act (fuel + 1) s = Except.ok s) := by
  refine ⟨⟨rfl, rfl⟩, ?_, ?_⟩
  · intro fuel
    induction fuel with
    | zero => exact fun s => ⟨s, rfl⟩
    | succ n ih =>
        intro s
        by_cases hr : s.thread_running
        · have htick : workerTickF act s = Except.ok (workerTick s).1 := by
            unfold workerTickF
            dsimp only
            rw [runCalls_ok act hok]
          obtain ⟨s1, hs1⟩ := ih (workerTick s).1
          exact ⟨s1, by unfold workerLoopF; rw [if_pos hr, htick]; exact hs1⟩
        · exact ⟨s, by unfold workerLoopF; rw [if_neg hr]⟩
  · intro fuel s hr
    unfold workerLoopF
    rw [hr]
    simp

/-- Witness for the amended C4: with the never-failing actuator the
loop runs three ticks without raising, and exits at once when the
running flag is false. -/
theorem worker_error_propagation_witness :
    (∃ s1, workerLoopF okAct 3 initialWebState = Except.ok s1) ∧
    workerLoopF okAct 1 { initialWebState with thread_running := false }
      = Except.ok { initialWebState with thread_running := false } :=
  ⟨(worker_error_propagation okAct (fun _ => rfl)).2.1 3 initialWebState,
   (worker_error_propagation okAct (fun _ => rfl)).2.2 0
     { initialWebState with thread_running := false } rfl⟩

/-- Counterexample to C5: from a stopped state, `TriggerPreset`
("demo1") CLEARS the stop flag (`run_preset`, line 371 sets
`STOP_ALL = False`), and a pan/tilt request does NOT clear it
(`handle_pan_tilt` never touches `STOP_ALL`) — the opposite of the
claim on both counts. -/
theorem preset_clears_stop_flag :
    sStopped.stop_all = true ∧
    (preset_route "demo1" sStopped).1.stop_all = false ∧
    (handle_pan_tilt defaultLimits zeroOffsets "pan_left" 3
        sStopped).1.stop_all = true :=
  ⟨rfl, rfl, rfl⟩

/-- Amended C5: `stop_all` is cleared by every `SetCommand` request
(the `/cmd` route clears it unconditionally, even for an unknown key)
and by `TriggerPreset` when it starts a preset; pan/tilt requests
leave it unchanged; the worker tick leaves it unchanged (no timer
clears it); `StopAll()` sets it. -/
theorem stop_flag_clearing_discipline (L : Limits) (off : Nat → Int) :
    (∀ key s, (cmd_route key s).1.stop_all = false) ∧
    (∀ name s, (run_preset_start name s).stop_all = false) ∧
    (∀ c st s, (handle_pan_tilt L off c st s).1.stop_all = s.stop_all) ∧
    (∀ s, (workerTick s).1.stop_all = s.stop_all) ∧
    (∀ s, (stopall_route s).1.stop_all = true) := by
  refine ⟨?_, fun name s => rfl, ?_, ?_, fun s => rfl⟩
  · intro key s
    unfold cmd_route
    rcases hm : map_key_to_cmd key with ⟨o, m⟩
    cases o <;> simp [hm]
  · intro c st s
    unfold handle_pan_tilt
    split <;> rfl
  · intro s
    unfold workerTick
    split
    · rfl
    · rcases hc : s.current_cmd with _ | cmd
      · simp [hc]
      · simp [hc, workerClearSlot]
        split <;> simp [execCmd_stop_all]

/-- Claim C6: after executing command `c`, the worker clears the slot
only if the slot still holds `c` (lines 176-179).  If a writer
overwrote the slot with a different command `c2` mid-execution, `c2`
survives and the next tick executes it; if the slot still holds the
executed command, it is cleared. -/
theorem slot_cleared_only_if_unchanged (c c2 : Cmd) (s s1 : WebState)
    (hne : c2 ≠ c) (hslot : s.current_cmd = some c2)
    (hstop : s.stop_all = false) (hsame : s1.current_cmd = some c) :
    (workerClearSlot c s).current_cmd = some c2 ∧
    (workerClearSlot c s1).current_cmd = none ∧
    (workerTick (workerClearSlot c s)).2 = (execCmd s c2).2 := by
  have hkeep : workerClearSlot c s = s := by
    unfold workerClearSlot
    rw [hslot]
    simp [hne]
  refine ⟨by rw [hkeep, hslot], ?_, ?_⟩
  · unfold workerClearSlot
    rw [hsame]
    simp
  · rw [hkeep]
    unfold workerTick
    rw [if_neg (by rw [hstop]; exact Bool.false_ne_true), hslot]

/-- Witness for C6: after executing "fwd", a slot overwritten with
"left" survives the clear step and the next tick runs the strafe
gait; an untouched slot holding "fwd" is cleared. -/
theorem slot_cleared_only_if_unchanged_witness :
    (workerClearSlot Cmd.fwd
        { initialWebState with current_cmd := some Cmd.left }).current_cmd
      = some Cmd.left ∧
    (workerClearSlot Cmd.fwd
        { initialWebState with current_cmd := some Cmd.fwd }).current_cmd
      = none ∧
    (workerTick (workerClearSlot Cmd.fwd
        { initialWebState with current_cmd := some Cmd.left })).2
      = (execCmd { initialWebState with current_cmd := some Cmd.left }
          Cmd.left).2 :=
  slot_cleared_only_if_unchanged Cmd.fwd Cmd.left
    { initialWebState with current_cmd := some Cmd.left }
    { initialWebState with current_cmd := some Cmd.fwd }
    (by decide) rfl rfl rfl

/-- Counterexample to C7: an unknown command name is NOT free of state
mutation.  The `/cmd` route clears STOP_ALL (line 807) BEFORE
validating the key, so `SetCommand("z")` on a stopped state flips the
stop flag to false even though the key is rejected with "Unknown
hexapod command". -/
theorem unknown_command_clears_stop_flag :
    (map_key_to_cmd "z").1 = none ∧
    sStopped.stop_all = true ∧
    (cmd_route "z" sStopped).1.stop_all = false ∧
    (cmd_route "z" sStopped).2 = "Unknown hexapod command" :=
  ⟨rfl, rfl, rfl, rfl⟩

/-- Amended C7: an unknown command name is rejected synchronously with
the descriptive status "Unknown hexapod command" and does not write
the command slot or any other field — EXCEPT that it clears the stop
flag, because the route clears STOP_ALL before validating the key.  An
unknown preset name is rejected with "Unknown preset" and mutates
nothing at all. -/
theorem unknown_name_rejection (key name : String) (s : WebState)
    (hk : (map_key_to_cmd key).1 = none)
    (hn : ¬(name = "demo1" ∨ name = "demo2" ∨ name = "demo3")) :
    (cmd_route key s).1 = { s with stop_all := false } ∧
    (cmd_route key s).2 = "Unknown hexapod command" ∧
    preset_route name s = (s, false, "Unknown preset") := by
  refine ⟨?_, ?_, ?_⟩
  · unfold cmd_route
    rcases hm : map_key_to_cmd key with ⟨o, m⟩
    rw [hm] at hk
    cases o
    · rfl
    · exact absurd hk (by simp)
  · unfold cmd_route
    rcases hm : map_key_to_cmd key with ⟨o, m⟩
    rw [hm] at hk
    cases o
    · rfl
    · exact absurd hk (by simp)
  · unfold preset_route
    rw [if_neg hn]

/-- Witness for the amended C7: key "z" and preset "dance" are both
unknown; the key rejection clears only the stop flag, the preset
rejection mutates nothing. -/
theorem unknown_name_rejection_witness :
    (cmd_route "z" sStopped).1 = { sStopped with stop_all := false } ∧
    (cmd_route "z" sStopped).2 = "Unknown hexapod command" ∧
    preset_route "dance" sStopped = (sStopped, false, "Unknown preset") :=
  unknown_name_rejection "z" "dance" sStopped rfl (by decide)

/-- The state in which demo1 ends when `StopAll()` fires at the first
loop check (instruction boundary 3, right after the prologue). -/
def demo1Aborted : WebState :=
  (runDemo1 defaultLimits zeroOffsets 3 initialWebState).1

/-- Counterexample to C8: not every step of a preset checks
`stop_all`.  When `StopAll()` fires at demo1's first loop check, the
loop does break, but the unchecked tail (lines 409-412) still runs:
it rewrites the pan/tilt state and refills the command slot with
"reset" AFTER `StopAll()` had cleared it, so the sequence did not
abort immediately. -/
theorem preset_tail_ignores_stop :
    demo1Aborted.stop_all = true ∧
    demo1Aborted.current_cmd = some Cmd.reset ∧
    (runDemo1 defaultLimits zeroOffsets 3 initialWebState).2
      = [HwCall.buzz, HwCall.ledWipe 0 200 255, HwCall.relax,
         HwCall.ledWipe 0 0 0] := by
  refine ⟨?_, ?_, ?_⟩ <;> decide

/-- Amended C8: each ITERATION of a preset loop checks `stop_all` and
breaks when it is set (so a stop at or before a loop check skips all
remaining iterations), but the straight-line tail after the loop runs
unchecked: after `StopAll()` during demo1 the tail still refills the
command slot with the reset command.  No further Actuator Interface
call results: the stop gate drops the tail's servo writes (the only
actuator call in the whole aborted run is `StopAll()`'s own
`Relax()`), the worker refuses the refilled slot while the flag is
set, and `active_preset` is clear at the end (StopAll and the
`finally` clause both clear it). -/
theorem preset_abort_discipline (L : Limits) (off : Nat → Int)
    (stopAt n : Nat) (s : WebState) (iter : List PAct)
    (rest : List (List PAct))
    (hstop : s.stop_all = true) (hne : n ≠ stopAt) :
    (runLoop L off stopAt n s (iter :: rest) = (n + 1, s, [])) ∧
    (runLoop L off n n s (iter :: rest)
      = (n + 1, (stopall_route s).1, [HwCall.relax])) ∧
    demo1Aborted.current_cmd = some Cmd.reset ∧
    demo1Aborted.active_preset = none ∧
    ((runDemo1 defaultLimits zeroOffsets 3 initialWebState).2.filter
        isActuatorCall = [HwCall.relax]) ∧
    (workerTick demo1Aborted
      = ({ demo1Aborted with current_cmd := none }, [HwCall.relax])) := by
  refine ⟨?_, ?_, by decide, by decide, by decide, by decide⟩
  · unfold runLoop
    rw [if_neg hne]
    simp [hstop]
  · unfold runLoop
    rw [if_pos rfl]
    rfl

/-- Witness for the amended C8: a loop entered with the stop flag
already set executes none of its iterations. -/
theorem preset_abort_discipline_witness :
    runLoop defaultLimits zeroOffsets 99 4 sStopped
        [demo1Iter 0, demo1Iter 1] = (5, sStopped, []) ∧
    runLoop defaultLimits zeroOffsets 4 4 sStopped
        [demo1Iter 0, demo1Iter 1]
      = (5, (stopall_route sStopped).1, [HwCall.relax]) :=
  ⟨(preset_abort_discipline defaultLimits zeroOffsets 99 4 sStopped
      (demo1Iter 0) [demo1Iter 1] rfl (by decide)).1,
   (preset_abort_discipline defaultLimits zeroOffsets 99 4 sStopped
      (demo1Iter 0) [demo1Iter 1] rfl (by decide)).2.1⟩

/-- The body-height part of the SharedState bounds invariant. -/
def zInv (s : WebState) : Prop := MIN_Z ≤ s.body_z ∧ s.body_z ≤ MAX_Z

/-- The pan/tilt part of the SharedState bounds invariant, relative to
the configured limits. -/
def ptInv (L : Limits) (s : WebState) : Prop :=
  L.PAN_MIN ≤ s.pan_angle ∧ s.pan_angle ≤ L.PAN_MAX ∧
    L.TILT_MIN ≤ s.tilt_angle ∧ s.tilt_angle ≤ L.TILT_MAX

/-- `zInv` only depends on `body_z`. -/
theorem zInv_of_eq (s1 s2 : WebState) (e : s1.body_z = s2.body_z)
    (h : zInv s2) : zInv s1 := by
  unfold zInv at *
  rw [e]
  exact h

/-- `cmd_route` never changes `body_z`. -/
theorem cmd_route_body_z (key : String) (s : WebState) :
    (cmd_route key s).1.body_z = s.body_z := by
  unfold cmd_route
  rcases hm : map_key_to_cmd key with ⟨o, m⟩
  cases o <;> simp [hm]

/-- `handle_pan_tilt` never changes `body_z`. -/
theorem handle_pan_tilt_body_z (L : Limits) (off : Nat → Int)
    (c : String) (st : Int) (s : WebState) :
    (handle_pan_tilt L off c st s).1.body_z = s.body_z := by
  unfold handle_pan_tilt
  split <;> rfl

/-- `workerClearSlot` never changes `body_z`. -/
theorem workerClearSlot_body_z (c : Cmd) (s : WebState) :
    (workerClearSlot c s).body_z = s.body_z := by
  unfold workerClearSlot
  split <;> rfl

/-- Executing any single command keeps `body_z` within
[MIN_Z, MAX_Z]: height and pose commands clamp before moving, the
others do not touch it. -/
theorem execCmd_zInv (s : WebState) (c : Cmd) (h : zInv s) :
    zInv (execCmd s c).1 := by
  cases c <;>
    first
      | exact h
      | exact ⟨le_clamp _ _ _, clamp_le _ _ _ (by decide)⟩

/-- A worker tick preserves the height invariant. -/
theorem workerTick_zInv (s : WebState) (h : zInv s) :
    zInv (workerTick s).1 := by
  unfold workerTick
  split
  · exact h
  · rcases hc : s.current_cmd with _ | cmd
    · exact h
    · exact zInv_of_eq _ _ (workerClearSlot_body_z cmd _)
        (execCmd_zInv s cmd h)

/-- The angles computed by `pt_angles` stay within the configured
bounds, provided 90 is within them (the `center` branch stores 90
without clamping). -/
theorem pt_angles_bounds (L : Limits) (c : String) (st pan tilt : Int)
    (h9p : L.PAN_MIN ≤ 90 ∧ 90 ≤ L.PAN_MAX)
    (h9t : L.TILT_MIN ≤ 90 ∧ 90 ≤ L.TILT_MAX)
    (hp : L.PAN_MIN ≤ pan ∧ pan ≤ L.PAN_MAX)
    (ht : L.TILT_MIN ≤ tilt ∧ tilt ≤ L.TILT_MAX) :
    L.PAN_MIN ≤ (pt_angles L c st pan tilt).1 ∧
      (pt_angles L c st pan tilt).1 ≤ L.PAN_MAX ∧
      L.TILT_MIN ≤ (pt_angles L c st pan tilt).2 ∧
      (pt_angles L c st pan tilt).2 ≤ L.TILT_MAX := by
  unfold pt_angles
  split_ifs <;>
    refine ⟨?_, ?_, ?_, ?_⟩ <;>
      first
        | exact h9p.1
        | exact h9p.2
        | exact h9t.1
        | exact h9t.2
        | exact hp.1
        | exact hp.2
        | exact ht.1
        | exact ht.2
        | exact le_clamp _ _ _
        | exact clamp_le _ _ _ (le_trans h9p.1 h9p.2)
        | exact clamp_le _ _ _ (le_trans h9t.1 h9t.2)

/-- `preset_route` never changes `body_z`. -/
theorem preset_route_body_z (name : String) (s : WebState) :
    (preset_route name s).1.body_z = s.body_z := by
  unfold preset_route
  split <;> rfl

/-- The limits configured by a `pan_tilt_limits.json` with
PAN_MAX = 80. -/
def limits80 : Limits := ⟨0, 80, 0, 180⟩

/-- A state whose pan angle 70 satisfies the `limits80` bounds. -/
def sPan70 : WebState := { initialWebState with pan_angle := 70 }

/-- Counterexample to C9: the `center` action writes pan = tilt = 90
with NO clamping (lines 219-221), so with configured bounds
[0, 80] it drives `pan_angle` to 90, outside [PAN_MIN, PAN_MAX],
from a state that satisfied the invariant. -/
theorem center_escapes_configured_bounds :
    limits80.PAN_MIN ≤ sPan70.pan_angle ∧
    sPan70.pan_angle ≤ limits80.PAN_MAX ∧
    (handle_pan_tilt limits80 zeroOffsets "center" 3 sPan70).1.pan_angle
      = 90 ∧
    ¬((handle_pan_tilt limits80 zeroOffsets "center" 3
        sPan70).1.pan_angle ≤ limits80.PAN_MAX) := by
  decide

/-- Amended C9: the `body_z` invariant MIN_Z ≤ body_z ≤ MAX_Z holds
initially and is preserved by every operation (height and pose
commands clamp before issuing the position call).  The pan/tilt
invariant holds initially and is preserved by every pan/tilt action
and preset-driven pan/tilt target PROVIDED 90 lies within the
configured bounds — as it does for the default bounds [0,180] — since
the `center` action (and the initial state) store 90 without
clamping. -/
theorem state_bounds_invariant (L : Limits) (off : Nat → Int)
    (h9p : L.PAN_MIN ≤ 90 ∧ 90 ≤ L.PAN_MAX)
    (h9t : L.TILT_MIN ≤ 90 ∧ 90 ≤ L.TILT_MAX) :
    zInv initialWebState ∧
    ptInv L initialWebState ∧
    (∀ s e, zInv s → zInv (stepE L off s e).1) ∧
    (∀ s a, zInv s → zInv (doPAct L off s a).1) ∧
    (∀ s c st, ptInv L s → ptInv L (handle_pan_tilt L off c st s).1) ∧
    (∀ s a, ptInv L s → ptInv L (doPAct L off s a).1) := by
  refine ⟨⟨by decide, by decide⟩, ⟨h9p.1, h9p.2, h9t.1, h9t.2⟩, ?_, ?_, ?_, ?_⟩
  · intro s e h
    cases e with
    | cmdKey k => exact zInv_of_eq _ _ (cmd_route_body_z k s) h
    | stopAll => exact h
    | tick => exact workerTick_zInv s h
    | panTilt c st => exact zInv_of_eq _ _ (handle_pan_tilt_body_z L off c st s) h
    | presetStart n => exact zInv_of_eq _ _ (preset_route_body_z n s) h
  · intro s a h
    cases a with
    | buzz => exact h
    | ledSolidA r g b => exact h
    | setCmdA c => exact h
    | ptToA pan tilt => exact h
    | ledBreatheA r g b =>
        dsimp only [doPAct]
        split
        · exact h
        · exact h
  · intro s c st h
    unfold handle_pan_tilt
    split
    · exact h
    · have hb := pt_angles_bounds L c st s.pan_angle s.tilt_angle h9p h9t
        ⟨h.1, h.2.1⟩ ⟨h.2.2.1, h.2.2.2⟩
      exact ⟨hb.1, hb.2.1, hb.2.2.1, hb.2.2.2⟩
  · intro s a h
    cases a with
    | buzz => exact h
    | ledSolidA r g b => exact h
    | setCmdA c => exact h
    | ptToA pan tilt =>
        cases pan with
        | none =>
            cases tilt with
            | none => exact ⟨h.1, h.2.1, h.2.2.1, h.2.2.2⟩
            | some tv =>
                exact ⟨h.1, h.2.1, le_clamp _ _ _,
                  clamp_le _ _ _ (le_trans h9t.1 h9t.2)⟩
        | some pv =>
            cases tilt with
            | none =>
                exact ⟨le_clamp _ _ _,
                  clamp_le _ _ _ (le_trans h9p.1 h9p.2), h.2.2.1, h.2.2.2⟩
            | some tv =>
                exact ⟨le_clamp _ _ _,
                  clamp_le _ _ _ (le_trans h9p.1 h9p.2), le_clamp _ _ _,
                  clamp_le _ _ _ (le_trans h9t.1 h9t.2)⟩
    | ledBreatheA r g b =>
        dsimp only [doPAct]
        split
        · exact h
        · exact h

/-- Witness for the amended C9 at the default limits: a raise tick
from the initial state keeps the height in bounds, and a `center`
request keeps the angles in bounds. -/
theorem state_bounds_invariant_witness :
    zInv initialWebState ∧
    ptInv defaultLimits initialWebState ∧
    zInv (stepE defaultLimits zeroOffsets
      { initialWebState with current_cmd := some Cmd.raise }
      Event.tick).1 ∧
    ptInv defaultLimits (handle_pan_tilt defaultLimits zeroOffsets
      "center" 3 initialWebState).1 :=
  ⟨(state_bounds_invariant defaultLimits zeroOffsets
      (by decide) (by decide)).1,
   (state_bounds_invariant defaultLimits zeroOffsets
      (by decide) (by decide)).2.1,
   (state_bounds_invariant defaultLimits zeroOffsets
      (by decide) (by decide)).2.2.1
     { initialWebState with current_cmd := some Cmd.raise }
     Event.tick ⟨by decide, by decide⟩,
   (state_bounds_invariant defaultLimits zeroOffsets
      (by decide) (by decide)).2.2.2.2.1 initialWebState "center" 3
     ⟨by decide, by decide, by decide, by decide⟩⟩

/-- Claim C10: `with_offset` returns a value clamped into [0, 180]
for every port, requested angle and offset table, and every
servo-angle hardware write in the program (initialisation, the
pan/tilt handler, preset pan/tilt steps) passes its angle through it —
so any angle reaching `setServoAngle` lies in [0, 180]. -/
theorem servo_angles_always_in_range (off : Nat → Int) (p : Nat)
    (a : Int) (L : Limits) (c : String) (st : Int) (s : WebState)
    (pan tilt : Option Int) (ch : Nat) (ang : Int) :
    (0 ≤ with_offset off p a ∧ with_offset off p a ≤ 180) ∧
    (HwCall.setServoAngle ch ang ∈ (handle_pan_tilt L off c st s).2.1 →
      0 ≤ ang ∧ ang ≤ 180) ∧
    (HwCall.setServoAngle ch ang ∈
        (doPAct L off s (PAct.ptToA pan tilt)).2 →
      0 ≤ ang ∧ ang ≤ 180) := by
  refine ⟨with_offset_bounds off p a, ?_, ?_⟩
  · intro hmem
    unfold handle_pan_tilt at hmem
    split at hmem
    · simp at hmem
    · dsimp only at hmem
      rcases List.mem_append.mp hmem with hm | hm <;>
        [skip; skip] <;>
        · unfold guarded_set_servo_angle at hm
          split at hm
          · simp at hm
          · rw [List.mem_singleton] at hm
            injection hm with h1 h2
            rw [h2]
            exact with_offset_bounds off _ _
  · intro hmem
    dsimp only [doPAct] at hmem
    rcases List.mem_append.mp hmem with hm | hm <;>
      [skip; skip] <;>
      · unfold guarded_set_servo_angle at hm
        split at hm
        · simp at hm
        · rw [List.mem_singleton] at hm
          injection hm with h1 h2
          rw [h2]
          exact with_offset_bounds off _ _

/-- Witness for C10: a pan/tilt `center` request with a large offset
on the pan port still writes angles inside [0, 180]. -/
theorem servo_angles_always_in_range_witness :
    (0 ≤ with_offset (fun _ => 200) 24 90 ∧
      with_offset (fun _ => 200) 24 90 ≤ 180) ∧
    ((0 : Int) ≤ 180 ∧ (180 : Int) ≤ 180) :=
  ⟨(servo_angles_always_in_range (fun _ => 200) 24 90 defaultLimits
      "center" 3 initialWebState none none 24 180).1,
   (servo_angles_always_in_range (fun _ => 200) 24 90 defaultLimits
      "center" 3 initialWebState none none 24 180).2.1 (by decide)⟩

end Hexweb
